import Mathlib

set_option maxRecDepth 100000

/-!
Shallow embedding of `src/main.py` from the repository
`android-sms-gateway/example-webhooks-fastapi`, a single-file FastAPI service
that registers itself as a webhook consumer with an SMS-gateway API and
handles `POST /webhook/sms-received` requests.

Modelling conventions:
* Bytes are naturals below 256; `bytes` values from Python are `List Nat`.
* 32-bit machine words are naturals reduced modulo `2 ^ 32` explicitly.
* `hashlib.sha256` / `hmac` are given a full executable implementation
  (FIPS 180-4 SHA-256 and RFC 2104 HMAC), since the handler's signature
  check depends on the actual digest values.
* Optional Python strings (`str | None`) are `Option String`; Python
  truthiness (`if x:`) is `pyTruthy`.
* The surrounding framework behaviour that the endpoint relies on is made
  explicit: `fastapi.HTTPException` becomes a dedicated result constructor,
  any other uncaught Python exception (e.g. `AttributeError` from reading a
  missing `app.state` attribute) becomes `pythonError`, which the ASGI stack
  surfaces as an HTTP 500 response (`toResponse`).
* The JSON text grammar and pydantic's datetime coercion are external
  library behaviour and are abstracted as the `Env` parameters `decodeJson`
  (bytes to a JSON tree) and `parseDatetime`; the pydantic model schemas of
  `WebhookPayload` / `SMSReceivedData` themselves are embedded concretely.
-/

/-! ### 32-bit word arithmetic -/

def M32 : Nat := 4294967296

def add32 (a b : Nat) : Nat := (a + b) % M32

def rotr (n x : Nat) : Nat := Nat.lor (x >>> n) ((x <<< (32 - n)) % M32)

def shaCh (e f g : Nat) : Nat := Nat.xor (Nat.land e f) (Nat.land (Nat.xor e (M32 - 1)) g)

def shaMaj (a b c : Nat) : Nat := Nat.xor (Nat.xor (Nat.land a b) (Nat.land a c)) (Nat.land b c)

def bsig0 (x : Nat) : Nat := Nat.xor (Nat.xor (rotr 2 x) (rotr 13 x)) (rotr 22 x)

def bsig1 (x : Nat) : Nat := Nat.xor (Nat.xor (rotr 6 x) (rotr 11 x)) (rotr 25 x)

def ssig0 (x : Nat) : Nat := Nat.xor (Nat.xor (rotr 7 x) (rotr 18 x)) (x >>> 3)

def ssig1 (x : Nat) : Nat := Nat.xor (Nat.xor (rotr 17 x) (rotr 19 x)) (x >>> 10)

/-! ### SHA-256 (FIPS 180-4) -/

/-- The 64 SHA-256 round constants, written in decimal. -/
def shaK : List Nat :=
  [1116352408, 1899447441, 3049323471, 3921009573, 961987163, 1508970993,
   2453635748, 2870763221, 3624381080, 310598401, 607225278, 1426881987,
   1925078388, 2162078206, 2614888103, 3248222580, 3835390401, 4022224774,
   264347078, 604807628, 770255983, 1249150122, 1555081692, 1996064986,
   2554220882, 2821834349, 2952996808, 3210313671, 3336571891, 3584528711,
   113926993, 338241895, 666307205, 773529912, 1294757372, 1396182291,
   1695183700, 1986661051, 2177026350, 2456956037, 2730485921, 2820302411,
   3259730800, 3345764771, 3516065817, 3600352804, 4094571909, 275423344,
   430227734, 506948616, 659060556, 883997877, 958139571, 1322822218,
   1537002063, 1747873779, 1955562222, 2024104815, 2227730452, 2361852424,
   2428436474, 2756734187, 3204031479, 3329325298]

/-- The eight SHA-256 initial hash values, written in decimal. -/
def shaH0 : List Nat :=
  [1779033703, 3144134277, 1013904242, 2773480762,
   1359893119, 2600822924, 528734635, 1541459225]

/-- Big-endian packing of bytes into 32-bit words. -/
def toWords : List Nat → List Nat
  | b0 :: b1 :: b2 :: b3 :: rest => (((b0 * 256 + b1) * 256 + b2) * 256 + b3) :: toWords rest
  | _ => []

/-- Next word of the SHA-256 message schedule, computed from the last 16 words. -/
def shaExtendStep (w : List Nat) : Nat :=
  add32 (add32 (ssig1 (w.getD (w.length - 2) 0)) (w.getD (w.length - 7) 0))
    (add32 (ssig0 (w.getD (w.length - 15) 0)) (w.getD (w.length - 16) 0))

/-- Extend the 16-word schedule by `k` further words. -/
def shaExtend : List Nat → Nat → List Nat
  | w, 0 => w
  | w, k + 1 => shaExtend (w ++ [shaExtendStep w]) k

/-- One SHA-256 compression round on the 8-word state. -/
def shaRound (st : List Nat) (ki wi : Nat) : List Nat :=
  match st with
  | [a, b, c, d, e, f, g, h] =>
    let t1 := add32 h (add32 (bsig1 e) (add32 (shaCh e f g) (add32 ki wi)))
    let t2 := add32 (bsig0 a) (shaMaj a b c)
    [add32 t1 t2, a, b, c, add32 d t1, e, f, g]
  | _ => st

/-- Process one 64-byte chunk. -/
def shaCompress (hs chunk : List Nat) : List Nat :=
  let w := shaExtend (toWords chunk) 48
  let st := (shaK.zip w).foldl (fun s kw => shaRound s kw.fst kw.snd) hs
  (hs.zip st).map (fun p => add32 p.fst p.snd)

def be64 (n : Nat) : List Nat :=
  [(n >>> 56) % 256, (n >>> 48) % 256, (n >>> 40) % 256, (n >>> 32) % 256,
   (n >>> 24) % 256, (n >>> 16) % 256, (n >>> 8) % 256, n % 256]

/-- SHA-256 padding: a `0x80` byte, zeros to 56 mod 64, then the bit length. -/
def padMessage (msg : List Nat) : List Nat :=
  msg ++ [128] ++ List.replicate ((119 - msg.length % 64) % 64) 0 ++ be64 (msg.length * 8)

/-- Split into 64-byte chunks (the fuel is an upper bound on the chunk count). -/
def chunks64Aux : Nat → List Nat → List (List Nat)
  | 0, _ => []
  | _, [] => []
  | fuel + 1, l => l.take 64 :: chunks64Aux fuel (l.drop 64)

def word4bytes (w : Nat) : List Nat :=
  [(w >>> 24) % 256, (w >>> 16) % 256, (w >>> 8) % 256, w % 256]

/-- SHA-256 of a byte string, as the 32-byte digest. -/
def sha256 (msg : List Nat) : List Nat :=
  ((chunks64Aux (padMessage msg).length (padMessage msg)).foldl shaCompress shaH0).flatMap word4bytes

/-! ### Hex encoding and HMAC (RFC 2104) -/

def hexChar (n : Nat) : Char := if n < 10 then Char.ofNat (48 + n) else Char.ofNat (87 + n)

def byteHex (b : Nat) : List Char := [hexChar (b / 16), hexChar (b % 16)]

/-- Lowercase hex rendering of a byte string (Python `.hexdigest()`). -/
def bytesToHex (bs : List Nat) : String := String.mk (bs.flatMap byteHex)

/-- HMAC-SHA256 (`hmac.new(key, msg, hashlib.sha256).digest()`). -/
def hmacSha256 (key msg : List Nat) : List Nat :=
  let k0 := if 64 < key.length then sha256 key else key
  let k := k0 ++ List.replicate (64 - k0.length) 0
  sha256 ((k.map (fun b => Nat.xor b 92)) ++ sha256 ((k.map (fun b => Nat.xor b 54)) ++ msg))

/-- `hmac.new(key, msg, hashlib.sha256).hexdigest()`. -/
def hmacSha256Hex (key msg : List Nat) : String := bytesToHex (hmacSha256 key msg)

/-! ### Python string primitives -/

/-- UTF-8 encoding of one code point. -/
def utf8Char (n : Nat) : List Nat :=
  if n < 128 then [n]
  else if n < 2048 then [192 + n / 64, 128 + n % 64]
  else if n < 65536 then [224 + n / 4096, 128 + (n / 64) % 64, 128 + n % 64]
  else [240 + n / 262144, 128 + (n / 4096) % 64, 128 + (n / 64) % 64, 128 + n % 64]

/-- Python `str.encode()` (UTF-8 bytes of a string). -/
def utf8 (s : String) : List Nat := s.data.flatMap (fun c => utf8Char c.toNat)

/-- Python truthiness of a `str | None` value: `None` and `""` are falsy. -/
def pyTruthy : Option String → Bool
  | none => false
  | some s => !(s == "")

/-- CPython's ASCII check on a `str` (all code points below 128). -/
def pyAscii (s : String) : Bool := s.data.all (fun c => c.toNat < 128)

/-- `hmac.compare_digest` on two `str` arguments: raises `TypeError` unless
both are ASCII-only, otherwise compares for equality (the constant-time
aspect has no observable value-level content). -/
def compare_digest (a b : String) : Except String Bool :=
  if pyAscii a && pyAscii b then Except.ok (a == b) else Except.error "TypeError"

/-! ### JSON trees and the pydantic models (`src/main.py` lines 33-47) -/

/-- A parsed JSON document (number literals restricted to integers; no claim
involves fractional numbers). -/
inductive Json where
  | null : Json
  | bool (b : Bool) : Json
  | num (n : Int) : Json
  | str (s : String) : Json
  | arr (elems : List Json) : Json
  | obj (fields : List (String × Json)) : Json

/-- Python `==` between a `str` and an arbitrary JSON-decoded value: equal
only when the other value is an equal string. -/
def pyStrEqJson (a : String) : Json → Bool
  | Json.str s => a == s
  | _ => false

/-- `class SMSReceivedData(BaseModel)`. The `received_at` field holds the
model of the `datetime` pydantic produced from the JSON string. -/
structure SMSReceivedData where
  message : String
  received_at : String
  message_id : String
  phone_number : String
  sim_number : Int

/-- `class WebhookPayload(BaseModel)`. -/
structure WebhookPayload where
  device_id : String
  event : String
  id : String
  webhook_id : String
  payload : SMSReceivedData

/-- External library behaviour the endpoint depends on but which is not part
of this repository's code: the JSON text grammar (`decodeJson`, bytes to a
parsed tree, `none` on a syntax error) and pydantic's datetime coercion
(`parseDatetime`, `none` when the string is not a valid datetime). -/
structure Env where
  decodeJson : List Nat → Option Json
  parseDatetime : String → Option String

/-- Field lookup during pydantic validation: the input must be a JSON object
containing the key (aliases are required since `populate_by_name` is unset;
extra keys are ignored, the default for pydantic models). -/
def jsonGet (j : Json) (k : String) : Except String Json :=
  match j with
  | Json.obj kvs =>
    match kvs.lookup k with
    | some v => Except.ok v
    | none => Except.error k
  | _ => Except.error k

def jsonStr : Json → Except String String
  | Json.str s => Except.ok s
  | _ => Except.error "str"

def jsonInt : Json → Except String Int
  | Json.num n => Except.ok n
  | _ => Except.error "int"

/-- Validation of the nested `SMSReceivedData` model against a JSON tree. -/
def SMSReceivedData.validate (env : Env) (j : Json) : Except String SMSReceivedData := do
  let msg ← jsonStr (← jsonGet j "message")
  let raRaw ← jsonStr (← jsonGet j "receivedAt")
  let ra ← match env.parseDatetime raRaw with
    | some d => Except.ok d
    | none => Except.error "datetime"
  let mid ← jsonStr (← jsonGet j "messageId")
  let ph ← jsonStr (← jsonGet j "phoneNumber")
  let sim ← jsonInt (← jsonGet j "simNumber")
  Except.ok ⟨msg, ra, mid, ph, sim⟩

/-- Validation of `WebhookPayload` against a JSON tree, including the
`pattern="^(sms:received)$"` constraint on `event` (pydantic-core regexes
anchor `$` at the end of the string). -/
def WebhookPayload.validate (env : Env) (j : Json) : Except String WebhookPayload := do
  let dev ← jsonStr (← jsonGet j "deviceId")
  let ev ← jsonStr (← jsonGet j "event")
  if ev == "sms:received" then
    let i ← jsonStr (← jsonGet j "id")
    let wid ← jsonStr (← jsonGet j "webhookId")
    let pj ← jsonGet j "payload"
    let pd ← SMSReceivedData.validate env pj
    Except.ok ⟨dev, ev, i, wid, pd⟩
  else Except.error "pattern"

/-- `WebhookPayload.model_validate_json(body)`: JSON decoding followed by
model validation; either failure raises, caught as "Invalid payload format". -/
def parseWebhookPayload (env : Env) (body : List Nat) : Except String WebhookPayload :=
  match env.decodeJson body with
  | none => Except.error "JSONDecodeError"
  | some j => WebhookPayload.validate env j

/-! ### Settings (`src/main.py` lines 12-30) -/

/-- `class Settings(BaseSettings)`: all credential-like fields default to
`None` when the corresponding environment variable is absent. -/
structure Settings where
  api_url : String := "https://api.sms-gate.app/3rdparty/v1"
  api_username : Option String := none
  api_password : Option String := none
  webhook_secret : Option String := none
  webhook_url : Option String := none
  ssl_cert : Option String := none
  ssl_key : Option String := none

/-! ### The webhook handler (`src/main.py` lines 113-148) -/

/-- An inbound request to `POST /webhook/sms-received`: the raw body bytes
and the two headers the handler reads (`none` when a header is absent). -/
structure Request where
  body : List Nat
  x_signature : Option String := none
  x_timestamp : Option String := none

/-- One `print` line of the handler's success path (lines 142-146). -/
inductive LogLine where
  | header : LogLine
  | sim (n : Int) : LogLine
  | sender (p : String) : LogLine
  | message (m : String) : LogLine
  | receivedAt (d : String) : LogLine

/-- Outcome of running the handler body: a normal return (with the printed
log lines), a raised `fastapi.HTTPException`, or any other uncaught Python
exception (by its class name). -/
inductive HandlerOutput where
  | success (logs : List LogLine) : HandlerOutput
  | httpError (status : Nat) (detail : String) : HandlerOutput
  | pythonError (exc : String) : HandlerOutput

/-- How the FastAPI/Starlette stack renders a handler outcome to the client:
a normal return is serialized with status 200, `HTTPException` becomes
`{"detail": ...}` with its status, and any other uncaught exception is
surfaced by the server-error middleware as a 500 response. -/
def toResponse : HandlerOutput → Nat × Json
  | HandlerOutput.success _ => (200, Json.obj [("status", Json.str "ok")])
  | HandlerOutput.httpError status detail => (status, Json.obj [("detail", Json.str detail)])
  | HandlerOutput.pythonError _ => (500, Json.str "Internal Server Error")

/-- Lines 132-148 of the handler: payload parsing, the webhook-id check
against `app.state.webhook_id` (reading the attribute raises
`AttributeError` when it was never set), and the logging success path.
Only the raw body is consulted in this part. -/
def payloadStage (env : Env) (st : Option Json) (body : List Nat) : HandlerOutput :=
  match parseWebhookPayload env body with
  | Except.error _ => HandlerOutput.httpError 400 "Invalid payload format"
  | Except.ok payload =>
    match st with
    | none => HandlerOutput.pythonError "AttributeError"
    | some wid =>
      if !pyStrEqJson payload.webhook_id wid then
        HandlerOutput.httpError 400 "Invalid webhook ID"
      else
        HandlerOutput.success
          [LogLine.header, LogLine.sim payload.payload.sim_number,
           LogLine.sender payload.payload.phone_number,
           LogLine.message payload.payload.message,
           LogLine.receivedAt payload.payload.received_at]

/-- `handle_sms_webhook`: the full endpoint body. `st` models
`app.state.webhook_id` (`none` when the attribute was never set). -/
def handle_sms_webhook (env : Env) (s : Settings) (st : Option Json) (r : Request) : HandlerOutput :=
  if pyTruthy s.webhook_secret then
    if !pyTruthy r.x_signature || !pyTruthy r.x_timestamp then
      HandlerOutput.httpError 401 "Missing signature header"
    else
      match compare_digest (r.x_signature.getD "")
          (hmacSha256Hex (utf8 (s.webhook_secret.getD ""))
            (r.body ++ utf8 (r.x_timestamp.getD ""))) with
      | Except.error e => HandlerOutput.pythonError e
      | Except.ok eq =>
        if !eq then HandlerOutput.httpError 401 "Invalid signature"
        else payloadStage env st r.body
  else payloadStage env st r.body

/-- The endpoint function performs no write to `app.state` (lines 113-148
contain no assignment), so processing a request leaves the registered
webhook id unchanged. -/
def handleStep (env : Env) (s : Settings) (st : Option Json) (r : Request) :
    HandlerOutput × Option Json :=
  (handle_sms_webhook env s st r, st)

/-! ### Gateway client and lifecycle (`src/main.py` lines 54-107) -/

/-- The observable outcome of one outbound `httpx` call: a response (status
code and decoded JSON body, `none` when the body is not valid JSON) or a
transport-level error. -/
structure NetResponse where
  status : Nat
  jsonBody : Option Json

inductive NetResult where
  | resp (r : NetResponse) : NetResult
  | netError (msg : String) : NetResult

/-- `httpx.Response.raise_for_status` raises unless the status is 2xx. -/
def isSuccessStatus (status : Nat) : Bool := 200 ≤ status && status < 300

/-- Result of `register_webhook`: skipped without any outbound call, webhook
registered (storing the response's `id` field into `app.state.webhook_id`),
or an uncaught exception (HTTP error status, transport error, undecodable
response body, or a response object without an `id` key). -/
inductive RegisterOutcome where
  | skipped : RegisterOutcome
  | registered (wid : Json) : RegisterOutcome
  | error (exc : String) : RegisterOutcome

/-- `register_webhook` (lines 54-76): a no-op unless the username, password
and callback URL are all truthy; otherwise one POST whose outcome is `net`. -/
def register_webhook (s : Settings) (net : NetResult) : RegisterOutcome :=
  if !pyTruthy s.api_username || !pyTruthy s.api_password || !pyTruthy s.webhook_url then
    RegisterOutcome.skipped
  else
    match net with
    | NetResult.netError m => RegisterOutcome.error m
    | NetResult.resp r =>
      if !isSuccessStatus r.status then RegisterOutcome.error "HTTPStatusError"
      else
        match r.jsonBody with
        | none => RegisterOutcome.error "JSONDecodeError"
        | some j =>
          match j with
          | Json.obj kvs =>
            match kvs.lookup "id" with
            | some v => RegisterOutcome.registered v
            | none => RegisterOutcome.error "KeyError"
          | _ => RegisterOutcome.error "TypeError"

inductive UnregisterOutcome where
  | skipped : UnregisterOutcome
  | unregistered (wid : Json) : UnregisterOutcome
  | error (exc : String) : UnregisterOutcome

/-- `unregister_webhook` (lines 79-96): a no-op unless the username, password
and callback URL are all truthy and `app.state.webhook_id` was set
(`hasattr`); otherwise one DELETE whose outcome is `net`, with
`raise_for_status` propagating on a non-2xx status. -/
def unregister_webhook (s : Settings) (st : Option Json) (net : NetResult) : UnregisterOutcome :=
  if !pyTruthy s.api_username || !pyTruthy s.api_password || !pyTruthy s.webhook_url
      || st.isNone then
    UnregisterOutcome.skipped
  else
    match net with
    | NetResult.netError m => UnregisterOutcome.error m
    | NetResult.resp r =>
      if !isSuccessStatus r.status then UnregisterOutcome.error "HTTPStatusError"
      else UnregisterOutcome.unregistered (st.getD Json.null)

/-- The `print` side effects of the shutdown path: the only log statement in
`unregister_webhook` is the success message of line 96, so a failing call
logs nothing. -/
def shutdownLogs : UnregisterOutcome → List Json
  | UnregisterOutcome.unregistered wid => [wid]
  | _ => []

/-- Startup half of `lifespan` (line 105): a registration failure propagates
and aborts startup; otherwise the returned id (if any) becomes the process
state. -/
def lifespanStartup (s : Settings) (net : NetResult) : Except String (Option Json) :=
  match register_webhook s net with
  | RegisterOutcome.skipped => Except.ok none
  | RegisterOutcome.registered wid => Except.ok (some wid)
  | RegisterOutcome.error m => Except.error m

/-- Shutdown half of `lifespan` (line 107): `await unregister_webhook(app)`
with no surrounding try/except, so an unregistration failure propagates out
of the application's lifespan context manager. -/
def lifespanShutdown (s : Settings) (st : Option Json) (net : NetResult) : Except String Unit :=
  match unregister_webhook s st net with
  | UnregisterOutcome.error m => Except.error m
  | _ => Except.ok ()

/-- A network outcome on which `raise_for_status` (or the transport) fails. -/
def netFails : NetResult → Prop
  | NetResult.netError _ => True
  | NetResult.resp r => ¬ isSuccessStatus r.status = true

/-! ### Statement helpers -/

/-- The condition under which the signature-verification stage (lines
119-130) lets a request through: vacuous when no secret is configured, and
otherwise requiring both headers to be present and non-empty with the
signature equal to the hex HMAC-SHA256, under the secret, of the raw body
concatenated with the UTF-8 bytes of the timestamp header. -/
def signatureAccepted (s : Settings) (r : Request) : Prop :=
  pyTruthy s.webhook_secret = true →
    ∃ sig ts, r.x_signature = some sig ∧ r.x_timestamp = some ts ∧ ts ≠ "" ∧
      sig = hmacSha256Hex (utf8 (s.webhook_secret.getD "")) (r.body ++ utf8 ts)

/-- The log lines the success path prints for a payload (lines 142-146). -/
def successLogs (p : WebhookPayload) : List LogLine :=
  [LogLine.header, LogLine.sim p.payload.sim_number, LogLine.sender p.payload.phone_number,
   LogLine.message p.payload.message, LogLine.receivedAt p.payload.received_at]

/-! ### Concrete fixtures used by witnesses and counterexamples -/

/-- A schema-valid payload tree carrying webhook id `wh_123`. -/
def sampleJson : Json :=
  Json.obj
    [("deviceId", Json.str "dev-1"), ("event", Json.str "sms:received"),
     ("id", Json.str "evt-1"), ("webhookId", Json.str "wh_123"),
     ("payload",
      Json.obj
        [("message", Json.str "hello"), ("receivedAt", Json.str "2024-01-01T00:00:00Z"),
         ("messageId", Json.str "m-1"), ("phoneNumber", Json.str "+15550001111"),
         ("simNumber", Json.num 1)])]

/-- The same payload tree with the mismatching webhook id `wh_999`. -/
def sampleJson2 : Json :=
  Json.obj
    [("deviceId", Json.str "dev-1"), ("event", Json.str "sms:received"),
     ("id", Json.str "evt-2"), ("webhookId", Json.str "wh_999"),
     ("payload",
      Json.obj
        [("message", Json.str "hello"), ("receivedAt", Json.str "2024-01-01T00:00:00Z"),
         ("messageId", Json.str "m-2"), ("phoneNumber", Json.str "+15550001111"),
         ("simNumber", Json.num 1)])]

def sampleBody : List Nat := utf8 "{sample-payload-wh-123}"

def sampleBody2 : List Nat := utf8 "{sample-payload-wh-999}"

/-- The validated form of `sampleJson` (datetime kept in its raw form by
`envSample.parseDatetime`). -/
def samplePayload : WebhookPayload :=
  ⟨"dev-1", "sms:received", "evt-1", "wh_123",
   ⟨"hello", "2024-01-01T00:00:00Z", "m-1", "+15550001111", 1⟩⟩

def samplePayload2 : WebhookPayload :=
  ⟨"dev-1", "sms:received", "evt-2", "wh_999",
   ⟨"hello", "2024-01-01T00:00:00Z", "m-2", "+15550001111", 1⟩⟩

/-- A concrete environment: a JSON decoder defined on the two body strings
the fixtures use, and an identity datetime coercion. -/
def envSample : Env :=
  { decodeJson := fun b =>
      if b = sampleBody then some sampleJson
      else if b = sampleBody2 then some sampleJson2
      else none,
    parseDatetime := fun s => some s }

/-- Settings with no environment variables set (all optional fields `None`). -/
def settingsBare : Settings := {}

/-- Settings with credentials and callback URL but no shared secret. -/
def settingsNoSecret : Settings :=
  { api_username := some "user", api_password := some "pass",
    webhook_url := some "https://example.com/webhook/sms-received" }

/-- Settings with credentials, callback URL and a shared secret. -/
def settingsSecret : Settings :=
  { api_username := some "user", api_password := some "pass",
    webhook_secret := some "topsecret",
    webhook_url := some "https://example.com/webhook/sms-received" }

/-- A schema-valid request carrying no signature headers. -/
def rSample : Request := { body := sampleBody }

/-- A schema-valid request correctly signed for `settingsSecret`: the
signature is the hex HMAC-SHA256 of the raw body followed by the UTF-8
bytes of the timestamp header. -/
def rValid : Request :=
  { body := sampleBody,
    x_signature := some (hmacSha256Hex (utf8 "topsecret") (sampleBody ++ utf8 "20240101")),
    x_timestamp := some "20240101" }

/-! ### Digest correctness evidence and shape lemmas -/

/-- FIPS 180-4 test vector: SHA-256 of `"abc"`. -/
example : bytesToHex (sha256 (utf8 "abc")) =
    "ba7816bf8f01cfea414140de5dae2223b00361a396177a9cb410ff61f20015ad" := by decide

/-- RFC 2202-style test vector: HMAC-SHA256 with key `"key"` over the fox
sentence. -/
example : hmacSha256Hex (utf8 "key") (utf8 "The quick brown fox jumps over the lazy dog") =
    "f7bc83f430538424b13298e6aa6fb143ef4d59a14946175997479dbc2d1a3cd8" := by decide

lemma shaRound_length (st : List Nat) (ki wi : Nat) : (shaRound st ki wi).length = st.length := by
  unfold shaRound
  split
  · simp_all
  · rfl

lemma foldl_shaRound_length (l : List (Nat × Nat)) (st : List Nat) :
    (l.foldl (fun s kw => shaRound s kw.fst kw.snd) st).length = st.length := by
  induction l generalizing st with
  | nil => rfl
  | cons a t ih => rw [List.foldl_cons, ih, shaRound_length]

lemma shaCompress_length (hs chunk : List Nat) (h : hs.length = 8) :
    (shaCompress hs chunk).length = 8 := by
  unfold shaCompress
  rw [List.length_map, List.length_zip, foldl_shaRound_length, h]
  simp

lemma foldl_shaCompress_length (blocks : List (List Nat)) (hs : List Nat) (h : hs.length = 8) :
    (blocks.foldl shaCompress hs).length = 8 := by
  induction blocks generalizing hs with
  | nil => exact h
  | cons b t ih => rw [List.foldl_cons]; exact ih _ (shaCompress_length _ _ h)

lemma sha256_length (msg : List Nat) : (sha256 msg).length = 32 := by
  unfold sha256
  rw [List.length_flatMap]
  have h4 : (List.length ∘ word4bytes) = fun _ : Nat => 4 := funext (fun w => rfl)
  have h8 : ((chunks64Aux (padMessage msg).length (padMessage msg)).foldl shaCompress
      shaH0).length = 8 := foldl_shaCompress_length _ _ rfl
  rw [h4, List.map_const', List.sum_replicate, h8]
  simp

lemma sha256_lt (msg : List Nat) : ∀ b ∈ sha256 msg, b < 256 := by
  intro b hb
  unfold sha256 at hb
  rw [List.mem_flatMap] at hb
  obtain ⟨w, _, hw⟩ := hb
  simp only [word4bytes, List.mem_cons, List.not_mem_nil, or_false] at hw
  rcases hw with h | h | h | h <;> subst h <;> exact Nat.mod_lt _ (by norm_num)

lemma hexChar_toNat_lt : ∀ n < 16, (hexChar n).toNat < 128 := by decide

lemma byteHex_ascii (b : Nat) (h : b < 256) : ∀ c ∈ byteHex b, c.toNat < 128 := by
  intro c hc
  simp only [byteHex, List.mem_cons, List.not_mem_nil, or_false] at hc
  rcases hc with h1 | h1 <;> subst h1
  · exact hexChar_toNat_lt _ (Nat.div_lt_of_lt_mul (by omega))
  · exact hexChar_toNat_lt _ (Nat.mod_lt _ (by norm_num))

lemma bytesToHex_ascii (bs : List Nat) (h : ∀ b ∈ bs, b < 256) :
    pyAscii (bytesToHex bs) = true := by
  unfold pyAscii bytesToHex
  rw [show (String.mk (bs.flatMap byteHex)).data = bs.flatMap byteHex from rfl]
  rw [List.all_eq_true]
  intro c hc
  rw [List.mem_flatMap] at hc
  obtain ⟨b, hb, hcb⟩ := hc
  exact decide_eq_true (byteHex_ascii b (h b hb) c hcb)

lemma bytesToHex_length (bs : List Nat) : (bytesToHex bs).length = 2 * bs.length := by
  unfold bytesToHex
  rw [show (String.mk (bs.flatMap byteHex)).length = (bs.flatMap byteHex).length from rfl]
  rw [List.length_flatMap]
  have h2 : (List.length ∘ byteHex) = fun _ : Nat => 2 := funext (fun b => rfl)
  rw [h2, List.map_const', List.sum_replicate, smul_eq_mul]
  omega

lemma hmacSha256Hex_length (key msg : List Nat) : (hmacSha256Hex key msg).length = 64 := by
  simp only [hmacSha256Hex, hmacSha256]
  rw [bytesToHex_length, sha256_length]

lemma hmacSha256Hex_ne_empty (key msg : List Nat) : hmacSha256Hex key msg ≠ "" := by
  intro h
  have hl := hmacSha256Hex_length key msg
  rw [h] at hl
  simp at hl

lemma hmacSha256Hex_ascii (key msg : List Nat) : pyAscii (hmacSha256Hex key msg) = true := by
  simp only [hmacSha256Hex, hmacSha256]
  exact bytesToHex_ascii _ (sha256_lt _)

/-! ### Handler stage lemmas -/

lemma handle_no_secret (env : Env) (s : Settings) (st : Option Json) (r : Request)
    (h : pyTruthy s.webhook_secret = false) :
    handle_sms_webhook env s st r = payloadStage env st r.body := by
  simp [handle_sms_webhook, h]

lemma handle_sig_accepted (env : Env) (s : Settings) (st : Option Json) (r : Request)
    (hacc : signatureAccepted s r) :
    handle_sms_webhook env s st r = payloadStage env st r.body := by
  by_cases hsec : pyTruthy s.webhook_secret = true
  · obtain ⟨sig, ts, h1, h2, h3, h4⟩ := hacc hsec
    have hsig_ne : sig ≠ "" := by rw [h4]; exact hmacSha256Hex_ne_empty _ _
    have b1 : (sig == "") = false := beq_eq_false_iff_ne.mpr hsig_ne
    have b2 : (ts == "") = false := beq_eq_false_iff_ne.mpr h3
    simp only [handle_sms_webhook, hsec, if_true, h1, h2, pyTruthy, b1, b2,
      Bool.not_false, Bool.not_true, Bool.or_self, Bool.false_or, Option.getD_some]
    rw [h4]
    simp [compare_digest, hmacSha256Hex_ascii]
  · exact handle_no_secret env s st r (Bool.not_eq_true _ ▸ Bool.of_not_eq_true hsec)

lemma payloadStage_fst_ne_401 (env : Env) (st : Option Json) (body : List Nat) :
    (toResponse (payloadStage env st body)).fst ≠ 401 := by
  unfold payloadStage
  cases hp : parseWebhookPayload env body with
  | error e => simp [toResponse]
  | ok p =>
    cases st with
    | none => simp [toResponse]
    | some wid =>
      by_cases h : pyStrEqJson p.webhook_id wid <;> simp [toResponse, h]

lemma payloadStage_success (env : Env) (body : List Nat) (j : Json) (p : WebhookPayload)
    (wid : String) (hdec : env.decodeJson body = some j)
    (hval : WebhookPayload.validate env j = Except.ok p) (hwid : p.webhook_id = wid) :
    payloadStage env (some (Json.str wid)) body = HandlerOutput.success (successLogs p) := by
  have hb : (p.webhook_id == wid) = true := beq_iff_eq.mpr hwid
  simp [payloadStage, parseWebhookPayload, hdec, hval, pyStrEqJson, hb, successLogs]

lemma payloadStage_mismatch (env : Env) (body : List Nat) (j : Json) (p : WebhookPayload)
    (wid : String) (hdec : env.decodeJson body = some j)
    (hval : WebhookPayload.validate env j = Except.ok p) (hne : p.webhook_id ≠ wid) :
    payloadStage env (some (Json.str wid)) body = HandlerOutput.httpError 400 "Invalid webhook ID" := by
  have hb : (p.webhook_id == wid) = false := beq_eq_false_iff_ne.mpr hne
  simp [payloadStage, parseWebhookPayload, hdec, hval, pyStrEqJson, hb]

lemma compare_digest_error (a b e : String) (h : compare_digest a b = Except.error e) :
    e = "TypeError" := by
  unfold compare_digest at h
  by_cases hc : (pyAscii a && pyAscii b) = true
  · rw [if_pos hc] at h; cases h
  · rw [if_neg hc] at h; injection h with h; exact h.symm

/-! ### Claim C1 -/

/--
Claim C1, as stated, is refuted by an edge case: with a secret configured,
a request whose `X-Timestamp` header is present but empty and whose
`X-Signature` equals the hex HMAC-SHA256 of the raw body concatenated with
that (empty) timestamp carries a schema-valid payload with the matching
webhook id, yet line 122's truthiness test treats the empty header as
missing and the handler answers 401, not 200, and logs nothing.
The second conjunct records that the supplied signature is exactly the
HMAC the claim requires for this request.
-/
theorem c1_counterexample :
    handle_sms_webhook envSample settingsSecret (some (Json.str "wh_123"))
      { body := sampleBody,
        x_signature := some (hmacSha256Hex (utf8 "topsecret") (sampleBody ++ utf8 "")),
        x_timestamp := some "" } = HandlerOutput.httpError 401 "Missing signature header" ∧
    (some (hmacSha256Hex (utf8 "topsecret") (sampleBody ++ utf8 "")) =
      some (hmacSha256Hex (utf8 (settingsSecret.webhook_secret.getD "")) (sampleBody ++ utf8 ""))) ∧
    envSample.decodeJson sampleBody = some sampleJson ∧
    WebhookPayload.validate envSample sampleJson = Except.ok samplePayload ∧
    samplePayload.webhook_id = "wh_123" := by
  refine ⟨?_, rfl, rfl, rfl, rfl⟩
  have h1 : pyTruthy settingsSecret.webhook_secret = true := rfl
  have h2 : pyTruthy (some "") = false := rfl
  simp [handle_sms_webhook, h1, h2]

/--
Claim C1 (amended): for every request whose body is a schema-valid payload
whose webhookId equals the currently registered webhook id, and — when a
shared secret is configured — whose `X-Signature` and `X-Timestamp` headers
are present and non-empty with the signature equal to the hex HMAC-SHA256
of the raw body concatenated with the timestamp header under that secret,
the handler returns HTTP 200 with body `{"status": "ok"}` and logs the
nested SMS record's fields (SIM number, phone number, message, received-at)
exactly once.
-/
theorem c1_valid_request_ok (env : Env) (s : Settings) (wid : String) (r : Request)
    (j : Json) (p : WebhookPayload)
    (hacc : signatureAccepted s r)
    (hdec : env.decodeJson r.body = some j)
    (hval : WebhookPayload.validate env j = Except.ok p)
    (hwid : p.webhook_id = wid) :
    handle_sms_webhook env s (some (Json.str wid)) r = HandlerOutput.success (successLogs p) ∧
    toResponse (handle_sms_webhook env s (some (Json.str wid)) r) =
      (200, Json.obj [("status", Json.str "ok")]) := by
  have h := (handle_sig_accepted env s (some (Json.str wid)) r hacc).trans
    (payloadStage_success env r.body j p wid hdec hval hwid)
  exact ⟨h, by rw [h]; rfl⟩

/-- Claim C1 witness: the correctly signed fixture request is accepted,
logged once, and answered with 200 `{"status": "ok"}`. -/
theorem c1_valid_request_ok_witness :
    handle_sms_webhook envSample settingsSecret (some (Json.str "wh_123")) rValid =
      HandlerOutput.success (successLogs samplePayload) ∧
    toResponse (handle_sms_webhook envSample settingsSecret (some (Json.str "wh_123")) rValid) =
      (200, Json.obj [("status", Json.str "ok")]) :=
  c1_valid_request_ok envSample settingsSecret "wh_123" rValid sampleJson samplePayload
    (fun _ => ⟨hmacSha256Hex (utf8 "topsecret") (sampleBody ++ utf8 "20240101"), "20240101",
      rfl, rfl, by decide, rfl⟩)
    rfl rfl rfl

/-! ### Claim C2 -/

/--
Claim C2, as stated, is refuted: with no credentials configured, startup
performs no outbound call and stores no id, but an inbound request with a
schema-valid payload does not fail the webhook-id check with 400 — reading
the never-set `app.state.webhook_id` on line 138 raises `AttributeError`,
which the server surfaces as HTTP 500.
-/
theorem c2_counterexample :
    lifespanStartup settingsBare (NetResult.netError "connection refused") = Except.ok none ∧
    handle_sms_webhook envSample settingsBare none rSample =
      HandlerOutput.pythonError "AttributeError" ∧
    (toResponse (handle_sms_webhook envSample settingsBare none rSample)).fst = 500 ∧
    (toResponse (handle_sms_webhook envSample settingsBare none rSample)).fst ≠ 400 := by
  refine ⟨rfl, rfl, rfl, by decide⟩

/--
Claim C2 (amended): if no webhook was ever registered, no inbound request
to the endpoint succeeds — a request failing signature verification gets
401 (or a `TypeError`, surfaced as 500, for a non-ASCII signature), a
request failing payload validation gets 400, and a request passing both
stages raises `AttributeError` when line 138 reads the missing
`app.state.webhook_id`, surfaced as HTTP 500 rather than the claimed 400.
-/
theorem c2_never_registered (env : Env) (s : Settings) (r : Request) :
    handle_sms_webhook env s none r = HandlerOutput.pythonError "AttributeError" ∨
    handle_sms_webhook env s none r = HandlerOutput.pythonError "TypeError" ∨
    ∃ c d, handle_sms_webhook env s none r = HandlerOutput.httpError c d ∧ (c = 400 ∨ c = 401) := by
  have hps : ∀ b, payloadStage env none b = HandlerOutput.pythonError "AttributeError" ∨
      payloadStage env none b = HandlerOutput.httpError 400 "Invalid payload format" := by
    intro b
    unfold payloadStage
    cases parseWebhookPayload env b with
    | error e => exact Or.inr rfl
    | ok p => exact Or.inl rfl
  have hfin : ∀ b, payloadStage env none b = HandlerOutput.pythonError "AttributeError" ∨
      ∃ c d, payloadStage env none b = HandlerOutput.httpError c d ∧ (c = 400 ∨ c = 401) := by
    intro b
    rcases hps b with h | h
    · exact Or.inl h
    · exact Or.inr ⟨400, "Invalid payload format", h, Or.inl rfl⟩
  unfold handle_sms_webhook
  by_cases hsec : pyTruthy s.webhook_secret = true
  · rw [if_pos hsec]
    by_cases hm : (!pyTruthy r.x_signature || !pyTruthy r.x_timestamp) = true
    · rw [if_pos hm]
      exact Or.inr (Or.inr ⟨401, "Missing signature header", rfl, Or.inr rfl⟩)
    · rw [if_neg hm]
      cases hcd : compare_digest (r.x_signature.getD "")
          (hmacSha256Hex (utf8 (s.webhook_secret.getD ""))
            (r.body ++ utf8 (r.x_timestamp.getD ""))) with
      | error e =>
        rw [compare_digest_error _ _ _ hcd]
        exact Or.inr (Or.inl rfl)
      | ok eq =>
        cases eq with
        | false => exact Or.inr (Or.inr ⟨401, "Invalid signature", rfl, Or.inr rfl⟩)
        | true =>
          rcases hfin r.body with h | ⟨c, d, h, hc⟩
          · exact Or.inl h
          · exact Or.inr (Or.inr ⟨c, d, h, hc⟩)
  · rw [if_neg hsec]
    rcases hfin r.body with h | ⟨c, d, h, hc⟩
    · exact Or.inl h
    · exact Or.inr (Or.inr ⟨c, d, h, hc⟩)

/-! ### Claim C3 -/

/--
Claim C3, as stated, is refuted: when the shutdown DELETE returns a
non-success status, `raise_for_status` on line 95 raises and nothing in
`unregister_webhook` or `lifespan` catches it — the error propagates out of
the application's shutdown sequence (`lifespanShutdown` produces the error
rather than a completed result) and the application code logs nothing (its
only shutdown log statement is the success print of line 96).
-/
theorem c3_counterexample :
    unregister_webhook settingsNoSecret (some (Json.str "wh_123"))
      (NetResult.resp ⟨500, some Json.null⟩) = UnregisterOutcome.error "HTTPStatusError" ∧
    lifespanShutdown settingsNoSecret (some (Json.str "wh_123"))
      (NetResult.resp ⟨500, some Json.null⟩) = Except.error "HTTPStatusError" ∧
    shutdownLogs (unregister_webhook settingsNoSecret (some (Json.str "wh_123"))
      (NetResult.resp ⟨500, some Json.null⟩)) = [] :=
  ⟨rfl, rfl, rfl⟩

/--
Claim C3 (amended): for every shutdown in which the webhook-unregistration
call fails (non-success HTTP status or network error), the application's
shutdown code neither catches nor logs the failure — the error propagates
uncaught out of the lifespan context manager; any logging and the
completion of process exit are provided by the hosting ASGI server, which
is outside this repository's code.
-/
theorem c3_unregister_failure_propagates (s : Settings) (st : Option Json) (net : NetResult)
    (wid : Json)
    (hu : pyTruthy s.api_username = true) (hp : pyTruthy s.api_password = true)
    (hw : pyTruthy s.webhook_url = true) (hst : st = some wid) (hf : netFails net) :
    (∃ m, lifespanShutdown s st net = Except.error m) ∧
    shutdownLogs (unregister_webhook s st net) = [] := by
  subst hst
  cases net with
  | netError m =>
    refine ⟨⟨m, ?_⟩, ?_⟩ <;> simp [lifespanShutdown, unregister_webhook, shutdownLogs, hu, hp, hw]
  | resp resp =>
    have hns : isSuccessStatus resp.status = false := Bool.eq_false_iff.mpr hf
    refine ⟨⟨"HTTPStatusError", ?_⟩, ?_⟩ <;>
      simp [lifespanShutdown, unregister_webhook, shutdownLogs, hu, hp, hw, hns]

/-- Claim C3 witness: a transport failure during shutdown unregistration
propagates as an error out of the lifespan shutdown with nothing logged. -/
theorem c3_unregister_failure_propagates_witness :
    (∃ m, lifespanShutdown settingsNoSecret (some (Json.str "wh_9"))
      (NetResult.netError "dns failure") = Except.error m) ∧
    shutdownLogs (unregister_webhook settingsNoSecret (some (Json.str "wh_9"))
      (NetResult.netError "dns failure")) = [] :=
  c3_unregister_failure_propagates settingsNoSecret (some (Json.str "wh_9"))
    (NetResult.netError "dns failure") (Json.str "wh_9") rfl rfl rfl rfl trivial

lemma pyTruthy_some_of_ne (x : String) (h : x ≠ "") : pyTruthy (some x) = true := by
  show (!(x == "")) = true
  rw [beq_eq_false_iff_ne.mpr h]
  rfl

/-! ### Claim C4 -/

/--
Claim C4, as stated, is refuted: a request whose `X-Timestamp` header is
present but empty and whose `X-Signature` equals the hex HMAC-SHA256 of the
raw body concatenated with that empty timestamp does not reach the
comparison — line 122's truthiness test already rejects it with 401
"Missing signature header", so the handler does not return "401 exactly
when the signature and the computed digest differ". The second conjunct
records that the signature supplied here equals the digest the handler
would have computed.
-/
theorem c4_counterexample :
    handle_sms_webhook envSample settingsSecret (some (Json.str "wh_123"))
      { body := [],
        x_signature := some (hmacSha256Hex (utf8 "topsecret") ([] ++ utf8 "")),
        x_timestamp := some "" } = HandlerOutput.httpError 401 "Missing signature header" ∧
    (some (hmacSha256Hex (utf8 "topsecret") ([] ++ utf8 "")) =
      some (hmacSha256Hex (utf8 (settingsSecret.webhook_secret.getD ""))
        (([] : List Nat) ++ utf8 ""))) := by
  refine ⟨?_, rfl⟩
  have h1 : pyTruthy settingsSecret.webhook_secret = true := rfl
  have h2 : pyTruthy (some "") = false := rfl
  simp [handle_sms_webhook, h1, h2]

/--
Claim C4 (amended): when a shared secret is configured, a request whose
`X-Signature` or `X-Timestamp` header is missing or empty is answered 401
("Missing signature header"); otherwise, for an ASCII signature (a
non-ASCII one makes `hmac.compare_digest` raise `TypeError`, surfaced as
500), the handler computes HMAC-SHA256 with the secret as key over the raw
body bytes concatenated with the timestamp bytes, hex-encodes the digest,
compares it with `hmac.compare_digest`, and responds 401 exactly when the
supplied signature differs from that digest.
-/
theorem c4_signature_check (env : Env) (s : Settings) (sec : String) (st : Option Json)
    (r : Request) (hs : s.webhook_secret = some sec) (hsec : sec ≠ "") :
    ((r.x_signature = none ∨ r.x_signature = some "" ∨
        r.x_timestamp = none ∨ r.x_timestamp = some "") →
      handle_sms_webhook env s st r = HandlerOutput.httpError 401 "Missing signature header") ∧
    (∀ sig ts, r.x_signature = some sig → r.x_timestamp = some ts → sig ≠ "" → ts ≠ "" →
      pyAscii sig = true →
      ((toResponse (handle_sms_webhook env s st r)).fst = 401 ↔
        sig ≠ hmacSha256Hex (utf8 sec) (r.body ++ utf8 ts))) := by
  have htr : pyTruthy s.webhook_secret = true := by
    rw [hs]; exact pyTruthy_some_of_ne sec hsec
  constructor
  · intro hmiss
    have hcond : (!pyTruthy r.x_signature || !pyTruthy r.x_timestamp) = true := by
      rcases hmiss with h | h | h | h <;> rw [h] <;> simp [pyTruthy]
    simp [handle_sms_webhook, htr, hcond]
  · intro sig ts h1 h2 hsne htne hascii
    have b1 : (sig == "") = false := beq_eq_false_iff_ne.mpr hsne
    have b2 : (ts == "") = false := beq_eq_false_iff_ne.mpr htne
    have hgetsec : s.webhook_secret.getD "" = sec := by rw [hs]; rfl
    have hcond : (!pyTruthy (some sig) || !pyTruthy (some ts)) = false := by
      simp [pyTruthy, b1, b2]
    have hEascii : pyAscii (hmacSha256Hex (utf8 sec) (r.body ++ utf8 ts)) = true :=
      hmacSha256Hex_ascii _ _
    have hred : handle_sms_webhook env s st r =
        match compare_digest sig (hmacSha256Hex (utf8 sec) (r.body ++ utf8 ts)) with
        | Except.error e => HandlerOutput.pythonError e
        | Except.ok b => if !b then HandlerOutput.httpError 401 "Invalid signature"
            else payloadStage env st r.body := by
      simp only [handle_sms_webhook, htr, if_true, hcond, Bool.false_eq_true, if_false,
        h1, h2, Option.getD_some, hgetsec]
    rw [hred]
    rw [show compare_digest sig (hmacSha256Hex (utf8 sec) (r.body ++ utf8 ts)) =
        Except.ok (sig == hmacSha256Hex (utf8 sec) (r.body ++ utf8 ts)) from by
      unfold compare_digest
      rw [hascii, hEascii]
      rfl]
    by_cases he : sig = hmacSha256Hex (utf8 sec) (r.body ++ utf8 ts)
    · rw [beq_iff_eq.mpr he]
      exact iff_of_false (payloadStage_fst_ne_401 env st r.body) (by simp [he])
    · rw [beq_eq_false_iff_ne.mpr he]
      exact iff_of_true rfl he

/-- Claim C4 witness: a present, non-empty, ASCII signature `"x"` differing
from the computed digest is answered with status 401. -/
theorem c4_signature_check_witness :
    (toResponse (handle_sms_webhook envSample settingsSecret (some (Json.str "wh_123"))
      { body := [], x_signature := some "x", x_timestamp := some "t" })).fst = 401 :=
  ((c4_signature_check envSample settingsSecret "topsecret" (some (Json.str "wh_123"))
      { body := [], x_signature := some "x", x_timestamp := some "t" } rfl (by decide)).2
    "x" "t" rfl rfl (by decide) (by decide) (by decide)).mpr (by decide)

/-- A present, non-empty, ASCII signature differing from the computed
digest is rejected with 401 "Invalid signature". -/
lemma handle_sig_mismatch (env : Env) (s : Settings) (sec : String) (st : Option Json)
    (r : Request) (sig ts : String)
    (hs : s.webhook_secret = some sec) (hsec : sec ≠ "")
    (h1 : r.x_signature = some sig) (h2 : r.x_timestamp = some ts)
    (hsne : sig ≠ "") (htne : ts ≠ "") (hascii : pyAscii sig = true)
    (hne : sig ≠ hmacSha256Hex (utf8 sec) (r.body ++ utf8 ts)) :
    handle_sms_webhook env s st r = HandlerOutput.httpError 401 "Invalid signature" := by
  have htr : pyTruthy s.webhook_secret = true := by
    rw [hs]; exact pyTruthy_some_of_ne sec hsec
  have b1 : (sig == "") = false := beq_eq_false_iff_ne.mpr hsne
  have b2 : (ts == "") = false := beq_eq_false_iff_ne.mpr htne
  have hgetsec : s.webhook_secret.getD "" = sec := by rw [hs]; rfl
  have hcond : (!pyTruthy (some sig) || !pyTruthy (some ts)) = false := by
    simp [pyTruthy, b1, b2]
  have hEascii : pyAscii (hmacSha256Hex (utf8 sec) (r.body ++ utf8 ts)) = true :=
    hmacSha256Hex_ascii _ _
  have hcd : compare_digest sig (hmacSha256Hex (utf8 sec) (r.body ++ utf8 ts)) =
      Except.ok false := by
    unfold compare_digest
    rw [hascii, hEascii, beq_eq_false_iff_ne.mpr hne]
    rfl
  have hred : handle_sms_webhook env s st r =
      match compare_digest sig (hmacSha256Hex (utf8 sec) (r.body ++ utf8 ts)) with
      | Except.error e => HandlerOutput.pythonError e
      | Except.ok b => if !b then HandlerOutput.httpError 401 "Invalid signature"
          else payloadStage env st r.body := by
    simp only [handle_sms_webhook, htr, if_true, hcond, Bool.false_eq_true, if_false,
      h1, h2, Option.getD_some, hgetsec]
  rw [hred, hcd]
  rfl

/-! ### Claim C5 -/

/--
Claim C5: when a shared secret is configured, signature verification
precedes payload parsing — a request carrying a signature computed over a
different (original) body, which therefore differs from the digest of the
actual body, is answered 401 "Invalid signature" for every body whatsoever
and every state, whether or not the body would parse against the schema.
-/
theorem c5_signature_precedes_parsing (env : Env) (s : Settings) (sec : String)
    (st : Option Json) (body origBody : List Nat) (ts : String)
    (hs : s.webhook_secret = some sec) (hsec : sec ≠ "") (hts : ts ≠ "")
    (hne : hmacSha256Hex (utf8 sec) (origBody ++ utf8 ts) ≠
      hmacSha256Hex (utf8 sec) (body ++ utf8 ts)) :
    handle_sms_webhook env s st
      { body := body,
        x_signature := some (hmacSha256Hex (utf8 sec) (origBody ++ utf8 ts)),
        x_timestamp := some ts } = HandlerOutput.httpError 401 "Invalid signature" := by
  exact handle_sig_mismatch env s sec st
    { body := body,
      x_signature := some (hmacSha256Hex (utf8 sec) (origBody ++ utf8 ts)),
      x_timestamp := some ts }
    (hmacSha256Hex (utf8 sec) (origBody ++ utf8 ts)) ts hs hsec rfl rfl
    (hmacSha256Hex_ne_empty _ _) hts (hmacSha256Hex_ascii _ _) hne

/-- Claim C5 witness: a signature over the fixture body, replayed with a
tampered body, is rejected 401 even though the tampered body is not even
valid JSON for the decoder. -/
theorem c5_signature_precedes_parsing_witness :
    handle_sms_webhook envSample settingsSecret (some (Json.str "wh_123"))
      { body := utf8 "tampered",
        x_signature := some (hmacSha256Hex (utf8 "topsecret") (sampleBody ++ utf8 "20240101")),
        x_timestamp := some "20240101" } = HandlerOutput.httpError 401 "Invalid signature" :=
  c5_signature_precedes_parsing envSample settingsSecret "topsecret"
    (some (Json.str "wh_123")) (utf8 "tampered") sampleBody "20240101"
    rfl (by decide) (by decide) (by decide)

/-! ### Claim C6 -/

/--
Claim C6: every request that passes signature verification and parses as a
schema-valid payload but whose webhookId differs from the registered
webhook id is answered HTTP 400 ("Invalid webhook ID").
-/
theorem c6_webhook_id_mismatch (env : Env) (s : Settings) (wid : String) (r : Request)
    (j : Json) (p : WebhookPayload)
    (hacc : signatureAccepted s r)
    (hdec : env.decodeJson r.body = some j)
    (hval : WebhookPayload.validate env j = Except.ok p)
    (hne : p.webhook_id ≠ wid) :
    handle_sms_webhook env s (some (Json.str wid)) r =
      HandlerOutput.httpError 400 "Invalid webhook ID" ∧
    (toResponse (handle_sms_webhook env s (some (Json.str wid)) r)).fst = 400 := by
  have h := (handle_sig_accepted env s (some (Json.str wid)) r hacc).trans
    (payloadStage_mismatch env r.body j p wid hdec hval hne)
  exact ⟨h, by rw [h]; rfl⟩

/-- Claim C6 witness: the fixture payload carrying `wh_999` against
registered id `wh_123` is answered 400. -/
theorem c6_webhook_id_mismatch_witness :
    handle_sms_webhook envSample settingsNoSecret (some (Json.str "wh_123"))
      { body := sampleBody2 } = HandlerOutput.httpError 400 "Invalid webhook ID" ∧
    (toResponse (handle_sms_webhook envSample settingsNoSecret (some (Json.str "wh_123"))
      { body := sampleBody2 })).fst = 400 :=
  c6_webhook_id_mismatch envSample settingsNoSecret "wh_123" { body := sampleBody2 }
    sampleJson2 samplePayload2 (fun h => Bool.noConfusion h) rfl rfl (by decide)

/-! ### Claim C7 -/

/--
Claim C7: when no shared secret is configured the signature stage is
skipped entirely — every schema-valid payload whose webhookId matches the
registered id succeeds with HTTP 200 even with no signature or timestamp
headers present.
-/
theorem c7_no_secret_success (env : Env) (s : Settings) (wid : String) (r : Request)
    (j : Json) (p : WebhookPayload)
    (hsec : pyTruthy s.webhook_secret = false)
    (_hsig : r.x_signature = none) (_hts : r.x_timestamp = none)
    (hdec : env.decodeJson r.body = some j)
    (hval : WebhookPayload.validate env j = Except.ok p)
    (hwid : p.webhook_id = wid) :
    handle_sms_webhook env s (some (Json.str wid)) r = HandlerOutput.success (successLogs p) ∧
    (toResponse (handle_sms_webhook env s (some (Json.str wid)) r)).fst = 200 := by
  have h := (handle_no_secret env s (some (Json.str wid)) r hsec).trans
    (payloadStage_success env r.body j p wid hdec hval hwid)
  exact ⟨h, by rw [h]; rfl⟩

/-- Claim C7 witness: with no secret configured, the fixture request with
no signature headers succeeds with 200. -/
theorem c7_no_secret_success_witness :
    handle_sms_webhook envSample settingsNoSecret (some (Json.str "wh_123")) rSample =
      HandlerOutput.success (successLogs samplePayload) ∧
    (toResponse (handle_sms_webhook envSample settingsNoSecret (some (Json.str "wh_123"))
      rSample)).fst = 200 :=
  c7_no_secret_success envSample settingsNoSecret "wh_123" rSample sampleJson samplePayload
    rfl rfl rfl rfl rfl rfl

/-! ### Claim C8 -/

/--
Claim C8: the registration and unregistration operations are skipped
entirely — no outbound call is attempted for any network behaviour, no
error raised — whenever the username, the password, or the webhook callback
URL is absent from the configuration.
-/
theorem c8_skipped_without_credentials (s : Settings)
    (h : s.api_username = none ∨ s.api_password = none ∨ s.webhook_url = none) :
    (∀ net, register_webhook s net = RegisterOutcome.skipped) ∧
    (∀ st net, unregister_webhook s st net = UnregisterOutcome.skipped) := by
  refine ⟨fun net => ?_, fun st net => ?_⟩ <;>
    rcases h with h | h | h <;>
      simp [register_webhook, unregister_webhook, pyTruthy, h]

/-- Claim C8 witness: with the bare settings (no credentials), registration
and unregistration are no-ops for concrete network behaviours, including a
gateway that would have answered successfully. -/
theorem c8_skipped_without_credentials_witness :
    register_webhook settingsBare
      (NetResult.resp ⟨200, some (Json.obj [("id", Json.str "wh_1")])⟩) =
      RegisterOutcome.skipped ∧
    unregister_webhook settingsBare (some (Json.str "wh_1")) (NetResult.netError "boom") =
      UnregisterOutcome.skipped :=
  ⟨(c8_skipped_without_credentials settingsBare (Or.inl rfl)).1 _,
   (c8_skipped_without_credentials settingsBare (Or.inl rfl)).2 _ _⟩

/-! ### Claim C9 -/

/--
Claim C9: the handler is idempotent over replays — the endpoint performs no
state write (`handleStep` returns the registered id unchanged), so
submitting the exact same valid request twice against the same registered
state yields HTTP 200 both times; no deduplication or replay protection
changes the second outcome.
-/
theorem c9_replay_idempotent (env : Env) (s : Settings) (wid : String) (r : Request)
    (j : Json) (p : WebhookPayload)
    (hacc : signatureAccepted s r)
    (hdec : env.decodeJson r.body = some j)
    (hval : WebhookPayload.validate env j = Except.ok p)
    (hwid : p.webhook_id = wid) :
    (handleStep env s (some (Json.str wid)) r).snd = some (Json.str wid) ∧
    (toResponse (handleStep env s (some (Json.str wid)) r).fst).fst = 200 ∧
    (toResponse (handleStep env s
      (handleStep env s (some (Json.str wid)) r).snd r).fst).fst = 200 := by
  have h := (handle_sig_accepted env s (some (Json.str wid)) r hacc).trans
    (payloadStage_success env r.body j p wid hdec hval hwid)
  refine ⟨rfl, ?_, ?_⟩ <;>
    · show (toResponse (handle_sms_webhook env s (some (Json.str wid)) r)).fst = 200
      rw [h]
      rfl

/-- Claim C9 witness: replaying the correctly signed fixture request against
the unchanged state answers 200 both times. -/
theorem c9_replay_idempotent_witness :
    (handleStep envSample settingsSecret (some (Json.str "wh_123")) rValid).snd =
      some (Json.str "wh_123") ∧
    (toResponse (handleStep envSample settingsSecret (some (Json.str "wh_123"))
      rValid).fst).fst = 200 ∧
    (toResponse (handleStep envSample settingsSecret
      (handleStep envSample settingsSecret (some (Json.str "wh_123")) rValid).snd
      rValid).fst).fst = 200 :=
  c9_replay_idempotent envSample settingsSecret "wh_123" rValid sampleJson samplePayload
    (fun _ => ⟨hmacSha256Hex (utf8 "topsecret") (sampleBody ++ utf8 "20240101"), "20240101",
      rfl, rfl, by decide, rfl⟩)
    rfl rfl rfl

/-! ### Claim C10 -/

/--
Claim C10: when no shared secret is configured, the handler's response does
not depend on the `X-Signature` and `X-Timestamp` headers at all — for
every body and state, arbitrary (even invalid) header values produce
exactly the same outcome as any other header values, including absent ones.
-/
theorem c10_headers_ignored_without_secret (env : Env) (s : Settings) (st : Option Json)
    (body : List Nat) (sig ts sig2 ts2 : Option String)
    (hsec : pyTruthy s.webhook_secret = false) :
    handle_sms_webhook env s st { body := body, x_signature := sig, x_timestamp := ts } =
      handle_sms_webhook env s st { body := body, x_signature := sig2, x_timestamp := ts2 } := by
  rw [handle_no_secret env s st _ hsec, handle_no_secret env s st _ hsec]

/-- Claim C10 witness: with no secret configured, garbage signature headers
produce the same response as no headers at all. -/
theorem c10_headers_ignored_without_secret_witness :
    handle_sms_webhook envSample settingsNoSecret (some (Json.str "wh_123"))
      { body := sampleBody, x_signature := some "garbage", x_timestamp := some "\xff" } =
      handle_sms_webhook envSample settingsNoSecret (some (Json.str "wh_123"))
      { body := sampleBody, x_signature := none, x_timestamp := none } :=
  c10_headers_ignored_without_secret envSample settingsNoSecret (some (Json.str "wh_123"))
    sampleBody (some "garbage") (some "\xff") none none rfl
